import Mathlib

/-!
# Verification of the Private Captcha Go client (verify pipeline)

Shallow embedding of the verification call pipeline of
`private-captcha-go` (files `client.go` / `models.go`, current version):
the per-attempt transport call `doVerify`, its HTTP status
classification, the `retriableError` wrapper, and the retry
orchestrator `Verify` with its backoff/sleep computation.

The HTTP world is abstracted as an environment supplying, for each
attempt index, what the single transport call observes (a network
failure, or a response with a status code, headers and a body that may
or may not JSON-decode).  The third-party backoff dependency
(`github.com/jpillora/backoff`) is not part of the repository source;
its delay stream is modelled from the specification, parameterized by
an abstract jitter stream.
-/

set_option autoImplicit false

namespace PrivateCaptcha

/-! ### models.go: VerifyCode constants -/

/-- `VerifyCode` constants from `models.go` (a Go typed int). -/
def VerifyNoError : Int := 0

def VerifyErrorOther : Int := 1

def DuplicateSolutionsError : Int := 2

def InvalidSolutionError : Int := 3

def ParseResponseError : Int := 4

def PuzzleExpiredError : Int := 5

def InvalidPropertyError : Int := 6

def WrongOwnerError : Int := 7

def VerifiedBeforeError : Int := 8

def MaintenanceModeError : Int := 9

def TestPropertyError : Int := 10

def IntegrityError : Int := 11

def OrgScopeError : Int := 12

/-- One past the last declared `VerifyCode` member (`models.go`):
`iota` continues after `OrgScopeError = 12`, so the value is 13. -/
def VERIFY_CODES_COUNT : Int := 13

/-- `VerifyOutput` from `models.go`: the decoded verification outcome.
`requestID` and `attempt` are the unexported fields. -/
structure VerifyOutput where
  Success : Bool
  Code : Int
  Origin : String
  Timestamp : String
  requestID : String
  attempt : Nat
deriving Repr, DecidableEq

/-! ### client.go: errors -/

/-- The concrete error values produced by the client:
`HTTPError{StatusCode, Seconds}` (the `Seconds` field holds the parsed
`Retry-After` hint and is left at the Go zero value `0` when the header
is absent or unparsable), a transport error from `http.Client.Do`
(tagged with whether it is a context-cancellation error), a JSON decode
error, and `errEmtpySolution`. -/
inductive VError where
  | httpError (statusCode : Nat) (seconds : Int)
  | transportError (ctxCanceled : Bool)
  | decodeError
  | emptySolution
deriving Repr, DecidableEq

/-- An error as seen through Go's `errors.As` in this client: either
wrapped in the `retriableError` marker (`retriable`) or bare
(`plain`).  `retriableError.Unwrap` maps `retriable e` to the bare
cause `plain e`. -/
inductive ClientError where
  | retriable (cause : VError)
  | plain (cause : VError)
deriving Repr, DecidableEq

/-- `errors.As(err, &httpErr)` for `HTTPError`: finds an `HTTPError`
either bare or through the `retriableError` wrapper, returning its
`(StatusCode, Seconds)` fields. -/
def asHTTPError : ClientError → Option (Nat × Int)
  | .retriable (.httpError sc s) => some (sc, s)
  | .plain (.httpError sc s) => some (sc, s)
  | _ => none

/-- `errors.As(err, &rerr)` for `retriableError`: succeeds exactly on
the wrapped form, exposing the cause (`rerr.Unwrap()`). -/
def asRetriable : ClientError → Option VError
  | .retriable cause => some cause
  | .plain _ => none

/-! ### Wire-level inputs of one transport call -/

/-- The JSON fields of the verification response body
(`success`, `code`, `origin`, `timestamp`). -/
structure ResponseBody where
  Success : Bool
  Code : Int
  Origin : String
  Timestamp : String
deriving Repr, DecidableEq

/-- What one HTTP response exposes to `doVerify`: the status code, the
`Retry-After` header value (Go's `Header.Get` yields `""` when the
header is absent), the `X-Trace-ID` header, and the body, as
`some` decoded fields when `json.Decode` succeeds and `none` when it
fails. -/
structure HttpResponse where
  statusCode : Nat
  retryAfter : String
  traceID : String
  body : Option ResponseBody
deriving Repr, DecidableEq

/-- What one call to `c.client.Do` observes: either a transport-level
failure (no response; `ctxCanceled` tags a context-cancellation error)
or an HTTP response. -/
inductive AttemptOutcome where
  | netFail (ctxCanceled : Bool)
  | resp (r : HttpResponse)
deriving Repr, DecidableEq

/-- `strconv.Atoi`: optional sign followed by at least one decimal
digit, nothing else.  (64-bit overflow is not modelled; the client only
parses `Retry-After` header values.) -/
def parseDigits : List Char → Option Nat
  | [] => none
  | cs =>
    if cs.all Char.isDigit then
      some (cs.foldl (fun a c => 10 * a + (c.toNat - 48)) 0)
    else
      none

/-- `strconv.Atoi` on a full string, with an optional leading sign. -/
def goAtoi (s : String) : Option Int :=
  match s.data with
  | [] => none
  | '+' :: rest => (parseDigits rest).map Int.ofNat
  | '-' :: rest => (parseDigits rest).map (fun n => -(Int.ofNat n))
  | cs => (parseDigits cs).map Int.ofNat

/-! ### client.go: doVerify -/

/-- The non-429 retriable status codes, in the order of the `switch`
case in `doVerify`: 500, 503, 502, 504, 408, 425. -/
def retriableStatuses : List Nat := [500, 503, 502, 504, 408, 425]

/-- The full set of retriable statuses (the 429 case plus
`retriableStatuses`), in ascending order. -/
def retriableSet : List Nat := [408, 425, 429, 500, 502, 503, 504]

/-- The `Retry-After` parsing block of the 429 case of `doVerify`:
`HTTPError.Seconds` stays at the zero value `0` unless the header is
non-empty and `strconv.Atoi` succeeds on it. -/
def parseRetryAfter (s : String) : Int :=
  if 0 < s.length then
    match goAtoi s with
    | some v => v
    | none => 0
  else 0

/-- `doVerify` (client.go): one transport call.  A `Do` failure is
wrapped retriable.  Status 429 parses the `Retry-After` header into
`HTTPError.Seconds` (left `0` on absence or parse failure) and is
wrapped retriable.  The statuses 500/503/502/504/408/425 yield a
retriable `HTTPError`.  Any other status `>= 300` yields a bare
`HTTPError`.  Otherwise the body is decoded into a fresh output whose
`requestID` comes from the `X-Trace-ID` header; a decode failure
returns that partial output together with a retriable error. -/
def doVerify (ev : AttemptOutcome) : Option VerifyOutput × Option ClientError :=
  match ev with
  | .netFail c => (none, some (.retriable (.transportError c)))
  | .resp r =>
    if r.statusCode = 429 then
      (none, some (.retriable (.httpError r.statusCode (parseRetryAfter r.retryAfter))))
    else if r.statusCode ∈ retriableStatuses then
      (none, some (.retriable (.httpError r.statusCode 0)))
    else if 300 ≤ r.statusCode then
      (none, some (.plain (.httpError r.statusCode 0)))
    else
      match r.body with
      | some b =>
        (some ⟨b.Success, b.Code, b.Origin, b.Timestamp, r.traceID, 0⟩, none)
      | none =>
        (some ⟨false, 0, "", "", r.traceID, 0⟩, some (.retriable .decodeError))

/-! ### Backoff delays (external dependency, spec-modelled) -/

/-- `minBackoffMillis` constant from client.go. -/
def minBackoffMillis : ℚ := 250

/-- Modelled from the spec: the base delay of the external backoff
dependency (`github.com/jpillora/backoff`, not under src/), before
jitter, for the n-th `Duration()` call (0-indexed): `min(max_delay,
min_delay * factor^n)` with the client's parameters `Min = 250 ms`,
`Factor = 2`, `Max = maxBackoffSeconds` seconds.  Milliseconds, exact
rational arithmetic. -/
def backoffBaseMillis (maxBackoffSeconds : Int) (n : Nat) : ℚ :=
  min ((maxBackoffSeconds : ℚ) * 1000) (minBackoffMillis * 2 ^ n)

/-- Modelled from the spec: the jittered delay, the base delay
multiplied by a random factor; the random draws are abstracted as a
stream `jitter : Nat → ℚ` of factors in a fixed band inside `[0, 1]`
(jitter is always on in the client). -/
def backoffDelayMillis (maxBackoffSeconds : Int) (jitter : Nat → ℚ) (n : Nat) : ℚ :=
  backoffBaseMillis maxBackoffSeconds n * jitter n

/-- Go's `time.Duration.Milliseconds()` applied to a duration held
here as exact rational milliseconds: integer division truncating
toward zero (`Int.tdiv`), as Go's integer `/` does. -/
def goMillis (q : ℚ) : Int := Int.tdiv q.num (q.den : Int)

/-- The sleep duration computed at the top of a retry iteration of
`Verify` (client.go): take `b.Duration()` (the n-th jittered delay);
if the previous error carries an `HTTPError` whose `Seconds * 1000`
exceeds that delay in (truncated) milliseconds, use
`min(Seconds, maxBackoffSeconds)` seconds instead.  Result in
milliseconds. -/
def computeBackoffMillis (maxBackoffSeconds : Int) (jitter : Nat → ℚ) (n : Nat)
    (err : Option ClientError) : ℚ :=
  let d := backoffDelayMillis maxBackoffSeconds jitter n
  match err.bind asHTTPError with
  | some (_, s) =>
    if goMillis d < s * 1000 then
      ((min s maxBackoffSeconds : Int) : ℚ) * 1000
    else d
  | none => d

/-! ### client.go: Verify -/

/-- `VerifyInput` from client.go (Go `int` fields may be non-positive,
in which case `Verify` substitutes defaults). -/
structure VerifyInput where
  Solution : String
  MaxBackoffSeconds : Int
  Attempts : Int
deriving Repr, DecidableEq

/-- The environment of one `Verify` call: for each attempt index, what
that transport call observes, and the abstract jitter stream consumed
by the n-th `b.Duration()` call. -/
structure VerifyEnv where
  outcomes : Nat → AttemptOutcome
  jitter : Nat → ℚ

/-- The state of `Verify`'s loop when it exits: the loop variable `i`,
the `response` and `err` variables, the sleeps performed (milliseconds,
in order), and how many transport calls were made. -/
structure LoopResult where
  finalI : Nat
  response : Option VerifyOutput
  err : Option ClientError
  sleeps : List ℚ
  calls : Nat
deriving Repr, DecidableEq

/-- The retry loop of `Verify` (client.go), with the remaining
iteration budget as `fuel` (the loop runs while `i < attempts`, so
`fuel = attempts - i`).  Each iteration first sleeps when `i > 0`
(the n-th `Duration()` call is the n-th sleep, `n = i - 1`), then calls
`doVerify`; a retriable error is unwrapped (`err = rerr.Unwrap()`) and
the loop continues, anything else breaks. -/
def verifyLoop (env : VerifyEnv) (maxBackoffSeconds : Int) :
    Nat → Nat → Option VerifyOutput → Option ClientError → List ℚ → Nat → LoopResult
  | 0, i, response, err, sleeps, calls => ⟨i, response, err, sleeps, calls⟩
  | fuel + 1, i, _, err, sleeps, calls =>
    let sleeps' :=
      if 0 < i then
        sleeps ++ [computeBackoffMillis maxBackoffSeconds env.jitter (i - 1) err]
      else sleeps
    match doVerify (env.outcomes i) with
    | (response', some (.retriable cause)) =>
      verifyLoop env maxBackoffSeconds fuel (i + 1) response'
        (some (.plain cause)) sleeps' (calls + 1)
    | (response', some (.plain e)) => ⟨i, response', some (.plain e), sleeps', calls + 1⟩
    | (response', none) => ⟨i, response', none, sleeps', calls + 1⟩

/-- The effective attempt count of `Verify`: `input.Attempts` when
positive, else the default 5. -/
def verifyAttempts (input : VerifyInput) : Nat :=
  if 0 < input.Attempts then input.Attempts.toNat else 5

/-- The effective backoff ceiling of `Verify`:
`input.MaxBackoffSeconds` when positive, else the default 4. -/
def verifyMaxBackoff (input : VerifyInput) : Int :=
  if 0 < input.MaxBackoffSeconds then input.MaxBackoffSeconds else 4

/-- What `Verify` returns, together with the observable trace of the
call (final loop variable, sleeps, transport call count). -/
structure VerifyResult where
  response : Option VerifyOutput
  err : Option ClientError
  finalI : Nat
  sleeps : List ℚ
  calls : Nat
deriving Repr, DecidableEq

/-- `Verify` (client.go): an empty solution is rejected up front with
`errEmtpySolution` and a nil output; otherwise the retry loop runs,
after which a nil `response` is replaced by the synthesized
`{Success: false, Code: VERIFY_CODES_COUNT}` and `response.attempt`
is set to the final value of the loop variable `i`. -/
def Verify (env : VerifyEnv) (input : VerifyInput) : VerifyResult :=
  if input.Solution.length = 0 then
    ⟨none, some (.plain .emptySolution), 0, [], 0⟩
  else
    let r := verifyLoop env (verifyMaxBackoff input) (verifyAttempts input) 0 none none [] 0
    let response : VerifyOutput :=
      match r.response with
      | none => ⟨false, VERIFY_CODES_COUNT, "", "", "", r.finalI⟩
      | some out => { out with attempt := r.finalI }
    ⟨some response, r.err, r.finalI, r.sleeps, r.calls⟩

/-- "Every transport call at index `i` comes back with a retriable
error" (the condition of the exhaustion claims). -/
def retriableAt (env : VerifyEnv) (i : Nat) : Prop :=
  ∃ cause, (doVerify (env.outcomes i)).2 = some (.retriable cause)

/-! ### Loop invariants -/

/-- The loop only appends to the accumulated list of sleeps. -/
theorem verifyLoop_sleeps_extend (env : VerifyEnv) (maxB : Int) :
    ∀ fuel i response err sleeps calls, ∃ t,
      (verifyLoop env maxB fuel i response err sleeps calls).sleeps = sleeps ++ t := by
  intro fuel
  induction fuel with
  | zero =>
    intro i response err sleeps calls
    exact ⟨[], by simp [verifyLoop]⟩
  | succ n ih =>
    intro i response err sleeps calls
    rcases hdo : doVerify (env.outcomes i) with ⟨resp', err'⟩
    rcases err' with _ | ce
    · refine ⟨if 0 < i then [computeBackoffMillis maxB env.jitter (i - 1) err] else [], ?_⟩
      by_cases hi : 0 < i <;>
        simp [verifyLoop, hdo, hi]
    · rcases ce with cause | e
      · obtain ⟨t, ht⟩ := ih (i + 1) resp' (some (.plain cause))
          (if 0 < i then sleeps ++ [computeBackoffMillis maxB env.jitter (i - 1) err]
           else sleeps) (calls + 1)
        refine ⟨(if 0 < i then [computeBackoffMillis maxB env.jitter (i - 1) err]
          else []) ++ t, ?_⟩
        by_cases hi : 0 < i <;>
          simp [verifyLoop, hdo, hi] <;>
          simp [hi] at ht <;>
          simp [ht]
      · refine ⟨if 0 < i then [computeBackoffMillis maxB env.jitter (i - 1) err] else [], ?_⟩
        by_cases hi : 0 < i <;>
          simp [verifyLoop, hdo, hi]

/-- When every remaining transport call fails retriably, the loop
consumes all its fuel: the loop variable advances by `fuel` and one
transport call is made per fuel unit. -/
theorem verifyLoop_all_retriable (env : VerifyEnv) (maxB : Int) :
    ∀ fuel i response err sleeps calls,
      (∀ j, j < fuel → retriableAt env (i + j)) →
      (verifyLoop env maxB fuel i response err sleeps calls).finalI = i + fuel ∧
      (verifyLoop env maxB fuel i response err sleeps calls).calls = calls + fuel := by
  intro fuel
  induction fuel with
  | zero =>
    intro i response err sleeps calls _
    simp [verifyLoop]
  | succ n ih =>
    intro i response err sleeps calls hall
    obtain ⟨cause, hc⟩ := hall 0 (Nat.succ_pos n)
    rw [Nat.add_zero] at hc
    rcases hdo : doVerify (env.outcomes i) with ⟨resp', err'⟩
    rw [hdo] at hc
    simp only at hc
    subst hc
    have ih' := ih (i + 1) resp' (some (.plain cause))
      (if 0 < i then sleeps ++ [computeBackoffMillis maxB env.jitter (i - 1) err] else sleeps)
      (calls + 1)
      (fun j hj => by
        have h2 := hall (j + 1) (Nat.succ_lt_succ hj)
        have h3 : i + (j + 1) = i + 1 + j := by omega
        rwa [h3] at h2)
    simp only [verifyLoop, hdo]
    refine ⟨?_, ?_⟩
    · rw [ih'.1]; omega
    · rw [ih'.2]; omega

/-- If the error accumulator holds no `retriableError`-wrapped value,
the loop never produces one: wrapped errors are unwrapped before the
next iteration, and breaking returns either no error or a bare one. -/
theorem verifyLoop_err_not_retriable (env : VerifyEnv) (maxB : Int) :
    ∀ fuel i response err sleeps calls,
      (∀ c, err ≠ some (.retriable c)) →
      ∀ c, (verifyLoop env maxB fuel i response err sleeps calls).err ≠
        some (.retriable c) := by
  intro fuel
  induction fuel with
  | zero =>
    intro i response err sleeps calls herr c
    simpa [verifyLoop] using herr c
  | succ n ih =>
    intro i response err sleeps calls herr c
    rcases hdo : doVerify (env.outcomes i) with ⟨resp', err'⟩
    rcases err' with _ | ce
    · simp [verifyLoop, hdo]
    · rcases ce with cause | e
      · simp only [verifyLoop, hdo]
        exact ih (i + 1) resp' (some (.plain cause)) _ (calls + 1) (by simp) c
      · simp [verifyLoop, hdo]

/-- If the response accumulator is empty and no transport call ever
yields a response object, the loop ends with no response object. -/
theorem verifyLoop_response_none (env : VerifyEnv) (maxB : Int)
    (hnone : ∀ j, (doVerify (env.outcomes j)).1 = none) :
    ∀ fuel i err sleeps calls,
      (verifyLoop env maxB fuel i none err sleeps calls).response = none := by
  intro fuel
  induction fuel with
  | zero =>
    intro i err sleeps calls
    simp [verifyLoop]
  | succ n ih =>
    intro i err sleeps calls
    rcases hdo : doVerify (env.outcomes i) with ⟨resp', err'⟩
    have hr : resp' = none := by
      have := hnone i
      rw [hdo] at this
      simpa using this
    subst hr
    rcases err' with _ | ce
    · simp [verifyLoop, hdo]
    · rcases ce with cause | e
      · simp only [verifyLoop, hdo]
        exact ih (i + 1) (some (.plain cause)) _ (calls + 1)
      · simp [verifyLoop, hdo]

/-- Bookkeeping between the transport-call count and the loop
variable: when the loop exhausts its fuel the two advance in lockstep;
a break performs one more call than the loop-variable advance. -/
theorem verifyLoop_calls_vs_finalI (env : VerifyEnv) (maxB : Int) :
    ∀ fuel i response err sleeps calls,
      (verifyLoop env maxB fuel i response err sleeps calls).calls + i =
        calls + (verifyLoop env maxB fuel i response err sleeps calls).finalI ∨
      (verifyLoop env maxB fuel i response err sleeps calls).calls + i =
        calls + (verifyLoop env maxB fuel i response err sleeps calls).finalI + 1 := by
  intro fuel
  induction fuel with
  | zero =>
    intro i response err sleeps calls
    left
    simp [verifyLoop, Nat.add_comm]
  | succ n ih =>
    intro i response err sleeps calls
    rcases hdo : doVerify (env.outcomes i) with ⟨resp', err'⟩
    rcases err' with _ | ce
    · right
      simp [verifyLoop, hdo]
      omega
    · rcases ce with cause | e
      · simp only [verifyLoop, hdo]
        rcases ih (i + 1) resp' (some (.plain cause))
          (if 0 < i then sleeps ++ [computeBackoffMillis maxB env.jitter (i - 1) err]
           else sleeps) (calls + 1) with h | h
        · left; omega
        · right; omega
      · right
        simp [verifyLoop, hdo]
        omega


/-! ### Claim theorems -/

/-- **C1.** For every HTTP response observed by a single transport
call (`doVerify`), the status code falls in exactly one of three
buckets: a status in {408, 425, 429, 500, 502, 503, 504} yields an
error wrapped in the retriable marker and the result does not depend
on the body (no decoding); any other status ≥ 300 yields the bare
`HTTPError` for that status, not wrapped retriable; a status in
[200, 300) proceeds to decode the body as the outcome payload. -/
theorem C1_status_classification (r : HttpResponse) (hs : 200 ≤ r.statusCode) :
    ((r.statusCode ∈ retriableSet ∨
        (300 ≤ r.statusCode ∧ r.statusCode ∉ retriableSet) ∨ r.statusCode < 300) ∧
      ¬(r.statusCode ∈ retriableSet ∧ 300 ≤ r.statusCode ∧ r.statusCode ∉ retriableSet) ∧
      ¬(r.statusCode ∈ retriableSet ∧ r.statusCode < 300) ∧
      ¬((300 ≤ r.statusCode ∧ r.statusCode ∉ retriableSet) ∧ r.statusCode < 300)) ∧
    (r.statusCode ∈ retriableSet →
      (∃ cause, (doVerify (.resp r)).2 = some (.retriable cause)) ∧
      (∀ b, doVerify (.resp { r with body := b }) = doVerify (.resp r))) ∧
    (300 ≤ r.statusCode → r.statusCode ∉ retriableSet →
      doVerify (.resp r) = (none, some (.plain (.httpError r.statusCode 0)))) ∧
    (r.statusCode < 300 →
      (∀ b, r.body = some b → doVerify (.resp r) =
        (some ⟨b.Success, b.Code, b.Origin, b.Timestamp, r.traceID, 0⟩, none)) ∧
      (r.body = none → doVerify (.resp r) =
        (some ⟨false, 0, "", "", r.traceID, 0⟩, some (.retriable .decodeError)))) := by
  refine ⟨⟨?_, ?_, ?_, ?_⟩, ?_, ?_, ?_⟩
  · by_cases hm : r.statusCode ∈ retriableSet
    · exact Or.inl hm
    · by_cases h3 : 300 ≤ r.statusCode
      · exact Or.inr (Or.inl ⟨h3, hm⟩)
      · exact Or.inr (Or.inr (by omega))
  · rintro ⟨h1, _, h2⟩
    exact h2 h1
  · rintro ⟨h1, h2⟩
    simp only [retriableSet, List.mem_cons, List.not_mem_nil, or_false] at h1
    omega
  · rintro ⟨⟨h1, _⟩, h2⟩
    omega
  · intro hm
    simp only [retriableSet, List.mem_cons, List.not_mem_nil, or_false] at hm
    rcases hm with h | h | h | h | h | h | h <;>
      exact ⟨⟨.httpError r.statusCode (if r.statusCode = 429 then
          parseRetryAfter r.retryAfter else 0), by
        simp [doVerify, retriableStatuses, h]⟩,
        fun b => by simp [doVerify, retriableStatuses, h]⟩
  · intro h3 hm
    simp only [retriableSet, List.mem_cons, List.not_mem_nil, or_false] at hm
    have h429 : ¬r.statusCode = 429 := by omega
    have hlist : ¬r.statusCode ∈ retriableStatuses := by
      simp only [retriableStatuses, List.mem_cons, List.not_mem_nil, or_false]
      omega
    simp only [doVerify, if_neg h429, if_neg hlist, if_pos h3]
  · intro h3
    have h429 : ¬r.statusCode = 429 := by omega
    have hlist : ¬r.statusCode ∈ retriableStatuses := by
      simp only [retriableStatuses, List.mem_cons, List.not_mem_nil, or_false]
      omega
    have hge : ¬300 ≤ r.statusCode := by omega
    constructor
    · intro b hb
      simp only [doVerify, if_neg h429, if_neg hlist, if_neg hge, hb]
    · intro hb
      simp only [doVerify, if_neg h429, if_neg hlist, if_neg hge, hb]

/-- Witness for C1: a 503 response is classified retriable, a 404 is a
bare terminal `HTTPError`, and a 200 response with a decodable body
becomes the decoded outcome. -/
theorem C1_status_classification_witness :
    (∃ cause, (doVerify (.resp ⟨503, "", "tid", none⟩)).2 = some (.retriable cause)) ∧
    doVerify (.resp ⟨404, "", "tid", none⟩) =
      (none, some (.plain (.httpError 404 0))) ∧
    doVerify (.resp ⟨200, "", "tid", some ⟨true, 0, "o", "ts"⟩⟩) =
      (some ⟨true, 0, "o", "ts", "tid", 0⟩, none) := by
  refine ⟨?_, ?_, ?_⟩
  · exact ((C1_status_classification ⟨503, "", "tid", none⟩ (by decide)).2.1
      (by decide)).1
  · exact (C1_status_classification ⟨404, "", "tid", none⟩ (by decide)).2.2.1
      (by decide) (by decide)
  · exact ((C1_status_classification ⟨200, "", "tid", some ⟨true, 0, "o", "ts"⟩⟩
      (by decide)).2.2.2 (by decide)).1 ⟨true, 0, "o", "ts"⟩ rfl

/-- A string has length zero exactly when it is empty (used to relate
the Go guard `len(input.Solution) == 0` to emptiness). -/
theorem string_length_eq_zero_iff (s : String) : s.length = 0 ↔ s = "" := by
  cases s with
  | mk data =>
    simp [String.length, String.ext_iff, List.length_eq_zero]

/-- **C2.** For every `Verify` call with a non-empty solution and a
configured attempt count N > 1, if every attempt produces a retriable
error then exactly N transport calls are performed and the returned
outcome's attempt counter equals N. -/
theorem C2_exhaustion_runs_all_attempts (env : VerifyEnv) (input : VerifyInput) (N : Nat)
    (hsol : input.Solution ≠ "") (hN : input.Attempts = (N : Int)) (h1 : 1 < N)
    (hall : ∀ i, i < N → retriableAt env i) :
    (Verify env input).calls = N ∧
    (Verify env input).response.map (fun out => out.attempt) = some N := by
  have hlen : ¬input.Solution.length = 0 := by
    rw [string_length_eq_zero_iff]
    exact hsol
  have hpos : 0 < input.Attempts := by
    rw [hN]
    exact_mod_cast Nat.lt_of_lt_of_le Nat.zero_lt_one h1.le
  have hA : verifyAttempts input = N := by
    rw [verifyAttempts, if_pos hpos, hN, Int.toNat_natCast]
  have hloop := verifyLoop_all_retriable env (verifyMaxBackoff input) N 0 none none [] 0
    (fun j hj => by simpa using hall j hj)
  simp only [Verify, if_neg hlen, hA]
  refine ⟨by simpa using hloop.2, ?_⟩
  rcases hresp : (verifyLoop env (verifyMaxBackoff input) N 0 none none [] 0).response
    with _ | out <;>
    simp [hresp, ← hloop.1, hresp]
  · simpa using hloop.1
  · simpa using hloop.1

/-- Witness for C2: three 503 responses with `Attempts = 3` give three
transport calls and an outcome stamped with attempt counter 3. -/
theorem C2_exhaustion_runs_all_attempts_witness :
    (Verify ⟨fun _ => .resp ⟨503, "", "", none⟩, fun _ => 1⟩ ⟨"x", 0, 3⟩).calls = 3 ∧
    (Verify ⟨fun _ => .resp ⟨503, "", "", none⟩, fun _ => 1⟩
        ⟨"x", 0, 3⟩).response.map (fun out => out.attempt) = some 3 :=
  C2_exhaustion_runs_all_attempts ⟨fun _ => .resp ⟨503, "", "", none⟩, fun _ => 1⟩
    ⟨"x", 0, 3⟩ 3 (by decide) rfl (by decide)
    (fun i _ => ⟨.httpError 503 0, by simp [doVerify, retriableStatuses]⟩)

/-- **C3.** For every `Verify` call whose solution is the empty
string, the call returns immediately with the designated empty-solution
error and a nil outcome, and no transport call is performed. -/
theorem C3_empty_solution_rejected (env : VerifyEnv) (input : VerifyInput)
    (hsol : input.Solution = "") :
    (Verify env input).response = none ∧
    (Verify env input).err = some (.plain .emptySolution) ∧
    (Verify env input).calls = 0 := by
  have hlen : input.Solution.length = 0 := by simp [hsol]
  simp [Verify, hlen]

/-- Witness for C3: an empty solution against an environment of
healthy responses still returns the empty-solution error, a nil
outcome and zero transport calls. -/
theorem C3_empty_solution_rejected_witness :
    (Verify ⟨fun _ => .resp ⟨200, "", "", some ⟨true, 0, "", ""⟩⟩, fun _ => 1⟩
        ⟨"", 0, 0⟩).response = none ∧
    (Verify ⟨fun _ => .resp ⟨200, "", "", some ⟨true, 0, "", ""⟩⟩, fun _ => 1⟩
        ⟨"", 0, 0⟩).err = some (.plain .emptySolution) ∧
    (Verify ⟨fun _ => .resp ⟨200, "", "", some ⟨true, 0, "", ""⟩⟩, fun _ => 1⟩
        ⟨"", 0, 0⟩).calls = 0 :=
  C3_empty_solution_rejected ⟨fun _ => .resp ⟨200, "", "", some ⟨true, 0, "", ""⟩⟩,
    fun _ => 1⟩ ⟨"", 0, 0⟩ rfl

/-- **C6.** For every `Verify` call, the error returned to the caller
is never the internal `retriableError` wrapper: terminal errors were
never wrapped and exhausted retriable errors are unwrapped before the
loop continues, so the caller receives only the underlying cause. -/
theorem C6_no_retriable_wrapper_escapes (env : VerifyEnv) (input : VerifyInput) :
    ∀ cause, (Verify env input).err ≠ some (.retriable cause) := by
  intro cause
  by_cases hlen : input.Solution.length = 0
  · simp [Verify, hlen]
  · simp only [Verify, if_neg hlen]
    exact verifyLoop_err_not_retriable env (verifyMaxBackoff input)
      (verifyAttempts input) 0 none none [] 0 (by simp) cause

/-- For a nonnegative rational, Go's truncating milliseconds
conversion agrees with the floor. -/
theorem goMillis_eq_floor (q : ℚ) (h : 0 ≤ q) : goMillis q = Int.floor q := by
  rw [goMillis, Int.tdiv_eq_ediv (Rat.num_nonneg.mpr h) (Int.natCast_nonneg q.den),
    Rat.floor_def]

/-- The base backoff delay is nonnegative for a nonnegative ceiling. -/
theorem backoffBaseMillis_nonneg (maxB : Int) (n : Nat) (hmb : 0 ≤ maxB) :
    0 ≤ backoffBaseMillis maxB n := by
  rw [backoffBaseMillis]
  apply le_min
  · exact mul_nonneg (by exact_mod_cast hmb) (by norm_num)
  · rw [minBackoffMillis]
    positivity

/-- The jittered backoff delay is nonnegative for a nonnegative
ceiling and jitter factor. -/
theorem backoffDelayMillis_nonneg (maxB : Int) (jitter : Nat → ℚ) (n : Nat)
    (hmb : 0 ≤ maxB) (hj : 0 ≤ jitter n) : 0 ≤ backoffDelayMillis maxB jitter n :=
  mul_nonneg (backoffBaseMillis_nonneg maxB n hmb) hj

/-- **C5 (counterexample).** A single attempt whose 200 response fails
to JSON-decode: the call returns a non-nil error and no server payload
was decoded, yet the outcome's code is 0 (the zero value), not the
`VERIFY_CODES_COUNT` sentinel the claim requires. -/
theorem C5_decode_failure_code_not_sentinel :
    (Verify ⟨fun _ => .resp ⟨200, "", "t", none⟩, fun _ => 1⟩ ⟨"x", 0, 1⟩).err =
      some (.plain .decodeError) ∧
    (Verify ⟨fun _ => .resp ⟨200, "", "t", none⟩, fun _ => 1⟩ ⟨"x", 0, 1⟩).response.map
      (fun out => out.Code) = some 0 ∧
    (0 : Int) ≠ VERIFY_CODES_COUNT := by
  refine ⟨?_, ?_, by decide⟩ <;>
    simp [Verify, verifyLoop, doVerify, verifyAttempts, verifyMaxBackoff,
      retriableStatuses, String.length]

/-- **C5 (amended).** For every `Verify` call with a non-empty
solution, the returned outcome is non-nil (whether or not an error is
returned); and when no attempt ever yields a response object (network
failure or a non-2xx status on every attempt, so no decode is even
attempted), the synthesized outcome has success=false and code equal
to the `VERIFY_CODES_COUNT` sentinel.  (A failed body decode instead
returns the partial outcome carrying the trace id, whose code is the
zero value.) -/
theorem C5_synthesized_outcome (env : VerifyEnv) (input : VerifyInput)
    (hsol : input.Solution ≠ "") :
    (Verify env input).response ≠ none ∧
    ((∀ j, (doVerify (env.outcomes j)).1 = none) →
      (Verify env input).response.map (fun out => (out.Success, out.Code)) =
        some (false, VERIFY_CODES_COUNT)) := by
  have hlen : ¬input.Solution.length = 0 := by
    rw [string_length_eq_zero_iff]
    exact hsol
  simp only [Verify, if_neg hlen]
  constructor
  · simp
  · intro hnone
    have hr := verifyLoop_response_none env (verifyMaxBackoff input) hnone
      (verifyAttempts input) 0 none [] 0
    simp [hr]

/-- Witness for the amended C5: two network failures with
`Attempts = 2` give a non-nil synthesized outcome with the sentinel
code. -/
theorem C5_synthesized_outcome_witness :
    (Verify ⟨fun _ => .netFail false, fun _ => 1⟩ ⟨"x", 0, 2⟩).response ≠ none ∧
    (Verify ⟨fun _ => .netFail false, fun _ => 1⟩ ⟨"x", 0, 2⟩).response.map
      (fun out => (out.Success, out.Code)) = some (false, VERIFY_CODES_COUNT) := by
  have h := C5_synthesized_outcome ⟨fun _ => .netFail false, fun _ => 1⟩
    ⟨"x", 0, 2⟩ (by decide)
  exact ⟨h.1, h.2 (fun j => by simp [doVerify])⟩

/-- **C7 (counterexample).** When the very first attempt succeeds, one
transport call is performed but the outcome's attempt counter is
stamped with the loop index 0, not with the number of calls. -/
theorem C7_first_attempt_success_counter :
    (Verify ⟨fun _ => .resp ⟨200, "", "t", some ⟨true, 0, "", ""⟩⟩, fun _ => 1⟩
        ⟨"x", 0, 0⟩).calls = 1 ∧
    (Verify ⟨fun _ => .resp ⟨200, "", "t", some ⟨true, 0, "", ""⟩⟩, fun _ => 1⟩
        ⟨"x", 0, 0⟩).response.map (fun out => out.attempt) = some 0 := by
  constructor <;>
    simp [Verify, verifyLoop, doVerify, verifyAttempts, verifyMaxBackoff,
      retriableStatuses, String.length]

/-- If the first `k` attempts (counting from index `i`) all fail
retriably and attempt `i + k` does not, the loop breaks there: the
loop variable ends at `i + k` after exactly `k + 1` transport calls. -/
theorem verifyLoop_break_at (env : VerifyEnv) (maxB : Int) :
    ∀ fuel k i response err sleeps calls, k < fuel →
      (∀ j, j < k → retriableAt env (i + j)) →
      ¬retriableAt env (i + k) →
      (verifyLoop env maxB fuel i response err sleeps calls).finalI = i + k ∧
      (verifyLoop env maxB fuel i response err sleeps calls).calls = calls + k + 1 := by
  intro fuel
  induction fuel with
  | zero =>
    intro k i response err sleeps calls hk
    exact absurd hk (Nat.not_lt_zero k)
  | succ n ih =>
    intro k i response err sleeps calls hk hpre hbrk
    rcases hdo : doVerify (env.outcomes i) with ⟨resp', err'⟩
    rcases k with _ | k'
    · rw [Nat.add_zero] at hbrk
      rcases err' with _ | ce
      · simp [verifyLoop, hdo]
      · rcases ce with cause | e
        · exact absurd ⟨cause, by rw [hdo]⟩ hbrk
        · simp [verifyLoop, hdo]
    · have h0 : retriableAt env (i + 0) := hpre 0 (Nat.succ_pos k')
      rw [Nat.add_zero] at h0
      obtain ⟨cause, hc⟩ := h0
      rw [hdo] at hc
      simp only at hc
      subst hc
      have ih' := ih k' (i + 1) resp' (some (.plain cause))
        (if 0 < i then sleeps ++ [computeBackoffMillis maxB env.jitter (i - 1) err]
         else sleeps) (calls + 1) (by omega)
        (fun j hj => by
          have h2 := hpre (j + 1) (Nat.succ_lt_succ hj)
          have h3 : i + (j + 1) = i + 1 + j := by omega
          rwa [h3] at h2)
        (by
          have h3 : i + 1 + k' = i + (k' + 1) := by omega
          rwa [h3])
      simp only [verifyLoop, hdo]
      refine ⟨?_, ?_⟩
      · rw [ih'.1]; omega
      · rw [ih'.2]; omega

/-- **C7 (amended).** For every `Verify` call that is not rejected for
an empty solution, the outcome's attempt counter equals the final
value of the loop variable: this equals the number of transport calls
performed when the loop exhausted all attempts (in particular when
every attempt failed retriably), while on every early exit — the first
non-retriable result (success or terminal failure) arriving at 0-based
attempt index k — the counter is stamped k, one less than the k + 1
transport calls actually performed. -/
theorem C7_attempt_counter_semantics (env : VerifyEnv) (input : VerifyInput)
    (hsol : input.Solution ≠ "") :
    (Verify env input).response.map (fun out => out.attempt) =
      some (Verify env input).finalI ∧
    ((Verify env input).calls = (Verify env input).finalI ∨
      (Verify env input).calls = (Verify env input).finalI + 1) ∧
    ((∀ i, i < verifyAttempts input → retriableAt env i) →
      (Verify env input).calls = (Verify env input).finalI) ∧
    (∀ k, k < verifyAttempts input →
      (∀ j, j < k → retriableAt env j) → ¬retriableAt env k →
      (Verify env input).finalI = k ∧ (Verify env input).calls = k + 1) := by
  have hlen : ¬input.Solution.length = 0 := by
    rw [string_length_eq_zero_iff]
    exact hsol
  simp only [Verify, if_neg hlen]
  refine ⟨?_, ?_, ?_, ?_⟩
  · rcases hresp : (verifyLoop env (verifyMaxBackoff input) (verifyAttempts input)
      0 none none [] 0).response with _ | out <;> simp [hresp]
  · have h := verifyLoop_calls_vs_finalI env (verifyMaxBackoff input)
      (verifyAttempts input) 0 none none [] 0
    rcases h with h | h
    · left
      simpa using h
    · right
      simpa using h
  · intro hall
    have h := verifyLoop_all_retriable env (verifyMaxBackoff input)
      (verifyAttempts input) 0 none none [] 0 (fun j hj => by simpa using hall j hj)
    simp [h.1, h.2]
  · intro k hk hpre hbrk
    have h := verifyLoop_break_at env (verifyMaxBackoff input)
      (verifyAttempts input) k 0 none none [] 0 hk
      (fun j hj => by simpa using hpre j hj) (by simpa using hbrk)
    exact ⟨by simpa using h.1, by simpa using h.2⟩

/-- Witness for the amended C7: attempt 0 fails with 500 and attempt 1
succeeds, so the loop breaks at index 1 after two transport calls; the
counter is stamped with the loop variable 1 = calls - 1, and the
disjunctive bookkeeping holds. -/
theorem C7_attempt_counter_semantics_witness :
    (Verify ⟨fun i => if i = 0 then .resp ⟨500, "", "", none⟩
        else .resp ⟨200, "", "t", some ⟨true, 0, "", ""⟩⟩, fun _ => 1⟩
        ⟨"x", 0, 0⟩).response.map (fun out => out.attempt) =
      some (Verify ⟨fun i => if i = 0 then .resp ⟨500, "", "", none⟩
        else .resp ⟨200, "", "t", some ⟨true, 0, "", ""⟩⟩, fun _ => 1⟩
        ⟨"x", 0, 0⟩).finalI ∧
    (Verify ⟨fun i => if i = 0 then .resp ⟨500, "", "", none⟩
        else .resp ⟨200, "", "t", some ⟨true, 0, "", ""⟩⟩, fun _ => 1⟩
        ⟨"x", 0, 0⟩).finalI = 1 ∧
    (Verify ⟨fun i => if i = 0 then .resp ⟨500, "", "", none⟩
        else .resp ⟨200, "", "t", some ⟨true, 0, "", ""⟩⟩, fun _ => 1⟩
        ⟨"x", 0, 0⟩).calls = 1 + 1 := by
  have h := C7_attempt_counter_semantics
    ⟨fun i => if i = 0 then .resp ⟨500, "", "", none⟩
      else .resp ⟨200, "", "t", some ⟨true, 0, "", ""⟩⟩, fun _ => 1⟩
    ⟨"x", 0, 0⟩ (by decide)
  have hbrk := h.2.2.2 1 (by decide)
    (fun j hj => by
      have hj0 : j = 0 := by omega
      subst hj0
      exact ⟨.httpError 500 0, by decide⟩)
    (by
      rintro ⟨c, hc⟩
      simp [doVerify, retriableStatuses] at hc)
  exact ⟨h.1, hbrk.1, hbrk.2⟩

/-- Unfolding one retriable iteration of the loop. -/
theorem verifyLoop_step_retriable (env : VerifyEnv) (maxB : Int) (fuel i : Nat)
    (response resp' : Option VerifyOutput) (err : Option ClientError)
    (sleeps : List ℚ) (calls : Nat) (cause : VError)
    (hdo : doVerify (env.outcomes i) = (resp', some (.retriable cause))) :
    verifyLoop env maxB (fuel + 1) i response err sleeps calls =
      verifyLoop env maxB fuel (i + 1) resp' (some (.plain cause))
        (if 0 < i then sleeps ++ [computeBackoffMillis maxB env.jitter (i - 1) err]
         else sleeps) (calls + 1) := by
  simp only [verifyLoop, hdo]

/-- **C4.** Whenever the most recent failure carries a server retry
hint of `s` seconds and `s * 1000` exceeds the locally computed
backoff delay in milliseconds, the delay actually used is
`min(s, maxBackoffSeconds)` seconds; in particular a 429 response with
`Retry-After: 10` under a configured max backoff of 1 second sleeps
exactly 1000 milliseconds before the retry. -/
theorem C4_server_hint_override (maxB : Int) (jitter : Nat → ℚ) (n : Nat)
    (err : Option ClientError) (sc : Nat) (s : Int) (env : VerifyEnv)
    (hA : err.bind asHTTPError = some (sc, s))
    (hgt : goMillis (backoffDelayMillis maxB jitter n) < s * 1000)
    (henv : env.outcomes 0 = .resp ⟨429, "10", "", none⟩)
    (hj0 : 0 ≤ env.jitter 0) (hj1 : env.jitter 0 ≤ 1) :
    computeBackoffMillis maxB jitter n err = ((min s maxB : Int) : ℚ) * 1000 ∧
    (Verify env ⟨"x", 1, 5⟩).sleeps.head? = some 1000 := by
  constructor
  · simp only [computeBackoffMillis, hA]
    rw [if_pos hgt]
  · have hlen : ¬("x" : String).length = 0 := by decide
    have hdo0 : doVerify (env.outcomes 0) =
        (none, some (.retriable (.httpError 429 10))) := by
      rw [henv]
      decide
    have hd0 : 0 ≤ backoffDelayMillis 1 env.jitter 0 :=
      backoffDelayMillis_nonneg 1 env.jitter 0 (by norm_num) hj0
    have hbd : backoffDelayMillis 1 env.jitter 0 = 250 * env.jitter 0 := by
      rw [backoffDelayMillis, backoffBaseMillis, minBackoffMillis]
      norm_num [min_def]
    have hle : backoffDelayMillis 1 env.jitter 0 ≤ 250 := by
      rw [hbd]
      calc (250 : ℚ) * env.jitter 0 ≤ 250 * 1 :=
            mul_le_mul_of_nonneg_left hj1 (by norm_num)
        _ = 250 := mul_one _
    have hflt : goMillis (backoffDelayMillis 1 env.jitter 0) < 10 * 1000 := by
      rw [goMillis_eq_floor _ hd0]
      have h1 : Int.floor (backoffDelayMillis 1 env.jitter 0) ≤
          Int.floor (250 : ℚ) := Int.floor_le_floor hle
      have h2 : Int.floor (250 : ℚ) = 250 := by norm_num
      omega
    have hcb : computeBackoffMillis 1 env.jitter 0
        (some (.plain (.httpError 429 10))) = 1000 := by
      have hb : (some (ClientError.plain (.httpError 429 10))).bind asHTTPError =
          some (429, 10) := rfl
      simp only [computeBackoffMillis, hb]
      rw [if_pos hflt]
      norm_num [min_def]
    simp only [Verify, if_neg hlen]
    have e1 : verifyLoop env (verifyMaxBackoff ⟨"x", 1, 5⟩)
        (verifyAttempts ⟨"x", 1, 5⟩) 0 none none [] 0 =
        verifyLoop env 1 4 1 none (some (.plain (.httpError 429 10))) [] 1 :=
      verifyLoop_step_retriable env 1 4 0 none none none [] 0 _ hdo0
    rw [e1]
    have hacc : (if 0 < 1 then ([] : List ℚ) ++
        [computeBackoffMillis 1 env.jitter (1 - 1)
          (some (.plain (.httpError 429 10)))] else []) = [1000] := by
      simp [hcb]
    rcases hdo1 : doVerify (env.outcomes 1) with ⟨resp1, err1⟩
    rcases err1 with _ | ce
    · have e2 : verifyLoop env 1 4 1 none
          (some (.plain (.httpError 429 10))) [] 1 =
          ⟨1, resp1, none, if 0 < 1 then ([] : List ℚ) ++
            [computeBackoffMillis 1 env.jitter (1 - 1)
              (some (.plain (.httpError 429 10)))] else [], 2⟩ := by
        simp only [verifyLoop, hdo1]
      rw [e2, hacc]
      rfl
    · rcases ce with cause | e
      · have e2 : verifyLoop env 1 4 1 none
            (some (.plain (.httpError 429 10))) [] 1 =
            verifyLoop env 1 3 2 resp1 (some (.plain cause))
              (if 0 < 1 then ([] : List ℚ) ++
                [computeBackoffMillis 1 env.jitter (1 - 1)
                  (some (.plain (.httpError 429 10)))] else []) 2 :=
          verifyLoop_step_retriable env 1 3 1 none resp1
            (some (.plain (.httpError 429 10))) [] 1 cause hdo1
        rw [e2, hacc]
        obtain ⟨t, ht⟩ := verifyLoop_sleeps_extend env 1 3 2 resp1
          (some (.plain cause)) [1000] 2
        rw [ht]
        rfl
      · have e2 : verifyLoop env 1 4 1 none
            (some (.plain (.httpError 429 10))) [] 1 =
            ⟨1, resp1, some (.plain e), if 0 < 1 then ([] : List ℚ) ++
              [computeBackoffMillis 1 env.jitter (1 - 1)
                (some (.plain (.httpError 429 10)))] else [], 2⟩ := by
          simp only [verifyLoop, hdo1]
        rw [e2, hacc]
        rfl

/-- Witness for C4: with a pending 429 error hinting 10 seconds and a
1-second ceiling, the computed override is `min(10, 1) = 1` second,
and the concrete `Verify` run sleeps 1000 ms before its first retry. -/
theorem C4_server_hint_override_witness :
    computeBackoffMillis 1 (fun _ => 1) 0
        (some (.plain (.httpError 429 10))) = ((min 10 1 : Int) : ℚ) * 1000 ∧
    (Verify ⟨fun _ => .resp ⟨429, "10", "", none⟩, fun _ => 1⟩
        ⟨"x", 1, 5⟩).sleeps.head? = some 1000 :=
  C4_server_hint_override 1 (fun _ => 1) 0
    (some (.plain (.httpError 429 10))) 429 10
    ⟨fun _ => .resp ⟨429, "10", "", none⟩, fun _ => 1⟩ rfl
    (by norm_num [backoffDelayMillis, backoffBaseMillis, minBackoffMillis,
      min_def, goMillis])
    rfl (by norm_num) (by norm_num)

/-- **C8 (counterexample).** For a 429 response whose `Retry-After`
header fails to parse ("abc") or is absent (""), the recorded hint on
the resulting `HTTPError` is the integer zero value 0 — not a
sentinel distinct from zero as the claim requires. -/
theorem C8_no_hint_is_zero_value :
    doVerify (.resp ⟨429, "abc", "", none⟩) =
      (none, some (.retriable (.httpError 429 0))) ∧
    doVerify (.resp ⟨429, "", "", none⟩) =
      (none, some (.retriable (.httpError 429 0))) := by
  constructor <;> decide

/-- **C8 (amended).** For every 429 response whose `Retry-After`
header is absent or fails to parse as an integer, the recorded hint is
the zero value 0 (not a distinct sentinel), the parse failure does not
fail the call (the retriable rate-limit error is still produced, with
no outcome), and the backoff computation treats a zero hint as no hint
present: the locally computed delay is used, since `0 * 1000` never
exceeds a nonnegative delay. -/
theorem C8_parse_failure_degrades (r : HttpResponse) (maxB : Int)
    (jitter : Nat → ℚ) (n : Nat) (h429 : r.statusCode = 429)
    (hparse : r.retryAfter = "" ∨ goAtoi r.retryAfter = none)
    (hmb : 0 ≤ maxB) (hj : 0 ≤ jitter n) :
    doVerify (.resp r) = (none, some (.retriable (.httpError 429 0))) ∧
    computeBackoffMillis maxB jitter n (some (.plain (.httpError 429 0))) =
      backoffDelayMillis maxB jitter n := by
  constructor
  · have hpa : parseRetryAfter r.retryAfter = 0 := by
      rcases hparse with h | h
      · rw [h]
        rfl
      · rw [parseRetryAfter]
        by_cases hl : 0 < r.retryAfter.length
        · rw [if_pos hl, h]
        · rw [if_neg hl]
    simp [doVerify, h429, hpa]
  · have hd0 : 0 ≤ backoffDelayMillis maxB jitter n :=
      backoffDelayMillis_nonneg maxB jitter n hmb hj
    have hnlt : ¬goMillis (backoffDelayMillis maxB jitter n) < 0 * 1000 := by
      rw [goMillis_eq_floor _ hd0]
      simp only [Int.zero_mul, Int.not_lt]
      exact Int.le_floor.mpr (by exact_mod_cast hd0)
    have hb : (some (ClientError.plain (.httpError 429 0))).bind asHTTPError =
        some (429, 0) := rfl
    simp only [computeBackoffMillis, hb]
    rw [if_neg hnlt]

/-- Witness for the amended C8: status 429 with header "abc", ceiling
4 seconds, unit jitter at call 0. -/
theorem C8_parse_failure_degrades_witness :
    doVerify (.resp ⟨429, "abc", "", none⟩) =
      (none, some (.retriable (.httpError 429 0))) ∧
    computeBackoffMillis 4 (fun _ => 1) 0 (some (.plain (.httpError 429 0))) =
      backoffDelayMillis 4 (fun _ => 1) 0 :=
  C8_parse_failure_degrades ⟨429, "abc", "", none⟩ 4 (fun _ => 1) 0 rfl
    (Or.inr (by decide)) (by norm_num) (by norm_num)

/-- **C9 (counterexample).** A `Verify` run with three 500 responses
and jitter draws 1 then 1/4 (both inside the band [0, 1]) sleeps
250 ms and then 125 ms: the sequence of delays actually used
decreases, so it is not monotonically non-decreasing. -/
theorem C9_delays_not_monotone :
    (Verify ⟨fun _ => .resp ⟨500, "", "", none⟩,
        fun n => if n = 0 then 1 else 1 / 4⟩ ⟨"x", 0, 3⟩).sleeps = [250, 125] ∧
    ¬((250 : ℚ) ≤ 125) := by
  constructor
  · simp [Verify, verifyLoop, doVerify, computeBackoffMillis, backoffDelayMillis,
      backoffBaseMillis, goMillis, retriableStatuses, verifyAttempts,
      verifyMaxBackoff, minBackoffMillis, asHTTPError, String.length]
    norm_num [min_def, Rat.num_ofNat, Rat.den_ofNat, Int.tdiv_one]
  · norm_num

/-- **C9 (amended).** Absent a server hint, each jittered delay lies
below the configured ceiling (for a jitter factor in [0, 1]), and the
pre-jitter base delay sequence is monotonically non-decreasing; the
jittered delays themselves need not be monotone. -/
theorem C9_delay_bounded_base_monotone (maxB : Int) (jitter : Nat → ℚ)
    (n m : Nat) (hnm : n ≤ m) (_hj0 : 0 ≤ jitter n) (hj1 : jitter n ≤ 1)
    (hmb : 0 ≤ maxB) :
    backoffDelayMillis maxB jitter n ≤ (maxB : ℚ) * 1000 ∧
    backoffBaseMillis maxB n ≤ backoffBaseMillis maxB m := by
  constructor
  · calc backoffDelayMillis maxB jitter n
        = backoffBaseMillis maxB n * jitter n := rfl
      _ ≤ backoffBaseMillis maxB n * 1 :=
          mul_le_mul_of_nonneg_left hj1 (backoffBaseMillis_nonneg maxB n hmb)
      _ = backoffBaseMillis maxB n := mul_one _
      _ ≤ (maxB : ℚ) * 1000 := by
          rw [backoffBaseMillis]
          exact min_le_left _ _
  · rw [backoffBaseMillis, backoffBaseMillis]
    refine min_le_min le_rfl ?_
    refine mul_le_mul_of_nonneg_left ?_ (by rw [minBackoffMillis]; norm_num)
    exact pow_le_pow_right₀ (by norm_num) hnm

/-- Witness for the amended C9: ceiling 4 s, jitter 1/2, calls 0 and 3. -/
theorem C9_delay_bounded_base_monotone_witness :
    backoffDelayMillis 4 (fun _ => 1 / 2) 0 ≤ ((4 : Int) : ℚ) * 1000 ∧
    backoffBaseMillis 4 0 ≤ backoffBaseMillis 4 3 :=
  C9_delay_bounded_base_monotone 4 (fun _ => 1 / 2) 0 3 (by norm_num)
    (by norm_num) (by norm_num) (by norm_num)

/-- **C10.** The retry sleep does not observe the caller's
cancellation signal (`time.Sleep` is not context-aware): with the
context cancelled from the first retry sleep onward — so that every
subsequent transport call fails immediately with a cancellation
error — the loop still performs all remaining transport calls (3 in
total) and sleeps the full backoff between them (250 ms then 500 ms),
rather than aborting; only after exhaustion does the cancellation
error surface. -/
theorem C10_cancellation_not_honored :
    (Verify ⟨fun i => if i = 0 then .resp ⟨500, "", "", none⟩ else .netFail true,
        fun _ => 1⟩ ⟨"x", 2, 3⟩).calls = 3 ∧
    (Verify ⟨fun i => if i = 0 then .resp ⟨500, "", "", none⟩ else .netFail true,
        fun _ => 1⟩ ⟨"x", 2, 3⟩).sleeps = [250, 500] ∧
    (Verify ⟨fun i => if i = 0 then .resp ⟨500, "", "", none⟩ else .netFail true,
        fun _ => 1⟩ ⟨"x", 2, 3⟩).err = some (.plain (.transportError true)) := by
  refine ⟨?_, ?_, ?_⟩ <;>
    · simp [Verify, verifyLoop, doVerify, computeBackoffMillis, backoffDelayMillis,
        backoffBaseMillis, goMillis, retriableStatuses, verifyAttempts,
        verifyMaxBackoff, minBackoffMillis, asHTTPError, String.length]
      try norm_num [min_def, Rat.num_ofNat, Rat.den_ofNat, Int.tdiv_one]

end PrivateCaptcha
